import Mathlib

/-!
Verification of the schema-cache / query-safety pipeline of an AI-SQL
assistant backend.  The JavaScript sources are embedded shallowly: pure
functions become Lean functions, the in-memory TTL cache becomes explicit
state passing over an association list with an explicit clock, and the
request handlers become pure functions of stubs for the external
collaborators (model provider, database executor, history sink), returning
the response together with the list of persisted history records and the
list of SQL strings submitted to the executor.
-/

namespace AISQL

/-! ## Character and regex-fragment utilities

The backend tests SQL strings with JavaScript regular expressions.  The
fragments actually used (word-boundary keyword search, literal scans,
whitespace runs) are modelled directly on lists of characters. -/

/-- JavaScript String.prototype.toUpperCase, character-wise (the inputs
concerned are ASCII). -/
def jsToUpper (s : String) : String :=
  ⟨s.data.map Char.toUpper⟩

/-- JavaScript String.prototype.toLowerCase, character-wise. -/
def jsToLower (s : String) : String :=
  ⟨s.data.map Char.toLower⟩

/-- Drop leading and trailing whitespace from a character list. -/
def trimChars (s : List Char) : List Char :=
  ((s.dropWhile Char.isWhitespace).reverse.dropWhile Char.isWhitespace).reverse

/-- JavaScript String.prototype.trim. -/
def jsTrim (s : String) : String :=
  ⟨trimChars s.data⟩

/-- JavaScript s.startsWith(p). -/
def jsStartsWith (s p : String) : Bool :=
  p.data.isPrefixOf s.data

/-- JavaScript regex word character class: letters, digits, underscore. -/
def isWordChar (c : Char) : Bool :=
  c.isAlphanum || c == '_'

/-- Case-insensitive character comparison, modelling the regex i flag. -/
def charIEq (a b : Char) : Bool :=
  a.toUpper == b.toUpper

/-- The characters of kw match the head of s, case-insensitively. -/
def matchCharsIC (kw s : List Char) : Bool :=
  ((s.take kw.length).length == kw.length) &&
  ((s.take kw.length).zip kw).all (fun p => charIEq p.1 p.2)

/-- The characters of kw match the head of s and are followed by a word
boundary (a non-word character or the end of the string). -/
def matchWordHere (kw s : List Char) : Bool :=
  matchCharsIC kw s && !(isWordChar (s.getD kw.length ' '))

/-- There is a word boundary just before position i of s. -/
def wordBoundaryBefore (s : List Char) (i : Nat) : Bool :=
  i == 0 || !(isWordChar (s.getD (i - 1) ' '))

/-- The regex \bkw\b (with the i flag) matches s at position i. -/
def wordMatchAt (kw s : List Char) (i : Nat) : Bool :=
  wordBoundaryBefore s i && matchWordHere kw (s.drop i)

/-- The regex \bkw\b (with the i flag) matches somewhere in s, i.e. the
JavaScript test new RegExp(`\\bkw\\b`, 'i').test(s). -/
def wordTest (kw : String) (s : String) : Bool :=
  (List.range s.data.length).any (fun i => wordMatchAt kw.data s.data i)

/-! ## aiService.js : validateSQLSafety -/

/-- The denylist from src/backend/src/services/aiService.js. -/
def dangerousKeywords : List String :=
  ["DROP", "DELETE", "INSERT", "UPDATE", "ALTER", "CREATE",
   "TRUNCATE", "GRANT", "REVOKE", "EXEC", "EXECUTE"]

/-- validateSQLSafety from src/backend/src/services/aiService.js: the
uppercased, trimmed string must start with SELECT, and no denylist keyword
may match anywhere in the original string as a whole word. -/
def validateSQLSafety (sql : String) : Bool :=
  let upperSQL := jsTrim (jsToUpper sql)
  if !(jsStartsWith upperSQL "SELECT") then
    false
  else if dangerousKeywords.any (fun kw => wordTest kw sql) then
    false
  else
    true

/-- Specification-side reading of clause (b) of the validator contract: the
keyword occurs somewhere in the string as a case-insensitive whole word
(an unbounded existential, to be compared with the bounded scan). -/
def specWordOccurs (kw : String) (sql : String) : Prop :=
  ∃ i, wordMatchAt kw.data sql.data i = true

/-- Specification-side reading of clause (a) of the validator contract as
written: the trimmed string, compared case-insensitively, begins with the
token SELECT, i.e. the prefix SELECT followed by a word boundary. -/
def specSelectTokenStart (sql : String) : Prop :=
  jsStartsWith (jsTrim (jsToUpper sql)) "SELECT" = true ∧
  isWordChar ((jsTrim (jsToUpper sql)).data.getD 6 ' ') = false

/-- The validator predicate exactly as the claim states it. -/
def specSafeClaim (sql : String) : Prop :=
  specSelectTokenStart sql ∧ ∀ kw ∈ dangerousKeywords, ¬ specWordOccurs kw sql

/-! ## cache.js : InMemoryCache

The cache is a Map from keys to entries carrying the stored value, the
insertion timestamp (Date.now(), in milliseconds) and the TTL converted to
milliseconds.  Stored values are JavaScript values that may be null; a
stored null is modelled as none.  Time is an explicit parameter.  Expiry
is the lazy check performed by get (the code comment calls it the
double-check); the setTimeout-based eager eviction is real-time behaviour
and is not part of the deterministic model. -/

structure CacheEntry where
  value : Option String
  timestamp : Nat
  ttl : Nat
deriving Repr, DecidableEq

abbrev Cache := List (String × CacheEntry)

/-- Lookup in the underlying Map. -/
def cacheLookup (c : Cache) (k : String) : Option CacheEntry :=
  match c.find? (fun p => p.1 == k) with
  | some p => some p.2
  | none => none

/-- InMemoryCache.delete: remove the entry whether or not expired. -/
def cacheDelete (c : Cache) (k : String) : Cache :=
  c.filter (fun p => !(p.1 == k))

/-- InMemoryCache.set: replace any prior entry under the key, storing the
value with timestamp now and ttl converted from seconds to milliseconds. -/
def cacheSet (c : Cache) (k : String) (v : Option String) (ttl : Nat) (now : Nat) : Cache :=
  (k, ⟨v, now, ttl * 1000⟩) :: cacheDelete c k

/-- InMemoryCache.get: return null when absent; if now - timestamp > ttl
delete the entry and return null; otherwise return the stored value.
A stored null is returned as null, indistinguishable from a miss. -/
def cacheGet (c : Cache) (k : String) (now : Nat) : Option String × Cache :=
  match cacheLookup c k with
  | none => (none, c)
  | some item =>
    if item.ttl < now - item.timestamp then
      (none, cacheDelete c k)
    else
      (item.value, c)

/-- InMemoryCache.has: this.cache.has(key) && this.get(key) !== null,
with the short-circuit of && (get runs only when the key is present). -/
def cacheHas (c : Cache) (k : String) (now : Nat) : Bool × Cache :=
  match cacheLookup c k with
  | none => (false, c)
  | some _ =>
    let r := cacheGet c k now
    (r.1.isSome, r.2)

/-- JavaScript truthiness of a possibly-null string. -/
def jsTruthy : Option String → Bool
  | none => false
  | some s => !(s == "")

/-! ## queryService.js and queryController (src/unnamed/part_000)

The external collaborators are stubs: the model provider is a function
from the schema context to an Except (the generated SQL or the thrown
error message), the database executor is a function from the SQL string to
an Except (the returned rows or the thrown error message).  Rows are kept
opaque as association lists of column name to value. -/

abbrev Row := List (String × String)

/-- Result object of generateAndExecuteQuery.  The catch branch of the
source nulls out generatedSQL and carries no results or rowCount. -/
structure QueryResult where
  success : Bool
  generatedSQL : Option String
  results : Option (List Row)
  rowCount : Option Nat
  error : Option String
deriving Repr, DecidableEq

/-- The error thrown by generateAndExecuteQuery when validateSQLSafety
rejects the generated SQL. -/
def unsafeQueryMessage : String :=
  "Generated query contains unsafe operations. Only SELECT queries are allowed."

/-- generateAndExecuteQuery from src/backend/src/services/queryService.js,
as a function of the stubbed model provider outcome and executor.  The
second component is the list of SQL strings submitted to the executor. -/
def generateAndExecuteQuery (genResult : Except String String)
    (exec : String → Except String (List Row)) :
    QueryResult × List String :=
  match genResult with
  | .error e =>
    (⟨false, none, none, none, some e⟩, [])
  | .ok generatedSQL =>
    if !(validateSQLSafety generatedSQL) then
      (⟨false, none, none, none, some unsafeQueryMessage⟩, [])
    else
      match exec generatedSQL with
      | .error e => (⟨false, none, none, none, some e⟩, [generatedSQL])
      | .ok rows =>
        (⟨true, some generatedSQL, some rows, some rows.length, none⟩, [generatedSQL])

/-- The error message produced when prepareSchema evaluates the variable
schemaContext, which is never assigned in that scope: the ReferenceError
is caught and wrapped as Schema preparation failed: its message.  This
unassigned-variable bug is in the source
(src/backend/src/services/queryService.js line 33 returns schemaContext
where schemaString was computed). -/
def schemaBugMessage : String :=
  "Schema preparation failed: schemaContext is not defined"

/-- prepareSchema from src/backend/src/services/queryService.js.  On a
truthy cache hit it returns the cached value.  On a miss it fetches the
schema (stubbed by schemaFetched, since buildSimpleSchema never throws),
caches it under cacheKey with the configured TTL, and then evaluates the
unassigned variable schemaContext, so the miss path always throws. -/
def prepareSchema (schemaFetched : String) (c : Cache) (cacheKey : String)
    (ttl now : Nat) : Except String String × Cache :=
  if jsTruthy (cacheGet c cacheKey now).1 then
    (.ok ((cacheGet c cacheKey now).1.getD ""), (cacheGet c cacheKey now).2)
  else
    (.error schemaBugMessage,
     cacheSet (cacheGet c cacheKey now).2 cacheKey (some schemaFetched) ttl now)

/-- One persisted QueryHistory record, with the fields the orchestrator
fills in (QueryHistory.logQuery call sites). -/
structure HistoryEntry where
  naturalLanguageQuery : String
  generatedSql : String
  status : String
  errorMessage : Option String
  rowCount : Nat
deriving Repr, DecidableEq

/-- JavaScript x || y for a possibly-null string with a string default. -/
def jsOrString (v : Option String) (d : String) : String :=
  if jsTruthy v then v.getD "" else d

/-- JavaScript x || null for a possibly-null string. -/
def jsOrNull (v : Option String) : Option String :=
  if jsTruthy v then v else none

/-- The record logged by generateAndRunQuery:
generatedSql := result.generatedSQL || 'Failed to generate SQL',
status := result.success ? 'success' : 'error',
errorMessage := result.error || null, rowCount := result.rowCount || 0. -/
def logEntry (nl : String) (result : QueryResult) : HistoryEntry :=
  { naturalLanguageQuery := nl
    generatedSql := jsOrString result.generatedSQL "Failed to generate SQL"
    status := if result.success then "success" else "error"
    errorMessage := jsOrNull result.error
    rowCount := result.rowCount.getD 0 }

/-- HTTP outcome of a request handler. -/
inductive Response where
  | okJson (generatedSQL : Option String) (rowCount : Nat)
  | badRequest (message : String) (err : Option String) (generatedSQL : Option String)
  | serverError (message : String)
deriving Repr, DecidableEq

/-- Observable outcome of one generateAndRunQuery request: the response,
the persisted history records, the SQL strings submitted to the executor,
and the final cache state. -/
structure RunOutcome where
  response : Response
  history : List HistoryEntry
  executed : List String
  cache : Cache
deriving Repr, DecidableEq

/-- generateAndRunQuery from the query controller (src/unnamed/part_000):
read the schema context from the cache; on a falsy read call prepareSchema
(whose thrown error propagates to the error middleware, skipping history
logging); then generate, validate and execute, and log exactly one history
record before responding. -/
def generateAndRunQuery (c : Cache) (cacheKey : String) (now ttl : Nat)
    (nl : String) (schemaFetched : String)
    (gen : String → Except String String)
    (exec : String → Except String (List Row)) : RunOutcome :=
  match (if jsTruthy (cacheGet c cacheKey now).1 then
          (Except.ok ((cacheGet c cacheKey now).1.getD ""), (cacheGet c cacheKey now).2)
         else prepareSchema schemaFetched (cacheGet c cacheKey now).2 cacheKey ttl now) with
  | (.error e, c2) =>
    { response := .serverError e, history := [], executed := [], cache := c2 }
  | (.ok schemaContext, c2) =>
    if (generateAndExecuteQuery (gen schemaContext) exec).1.success then
      { response := .okJson (generateAndExecuteQuery (gen schemaContext) exec).1.generatedSQL
          ((generateAndExecuteQuery (gen schemaContext) exec).1.rowCount.getD 0)
        history := [logEntry nl (generateAndExecuteQuery (gen schemaContext) exec).1]
        executed := (generateAndExecuteQuery (gen schemaContext) exec).2
        cache := c2 }
    else
      { response := .badRequest "Query execution failed"
          (generateAndExecuteQuery (gen schemaContext) exec).1.error
          (generateAndExecuteQuery (gen schemaContext) exec).1.generatedSQL
        history := [logEntry nl (generateAndExecuteQuery (gen schemaContext) exec).1]
        executed := (generateAndExecuteQuery (gen schemaContext) exec).2
        cache := c2 }

/-- Observable outcome of one executeRawSQL request. -/
structure RawOutcome where
  response : Response
  history : List HistoryEntry
  executed : List String
deriving Repr, DecidableEq

/-- executeRawSQL from the query controller (src/unnamed/part_000):
validate the user-supplied SQL, reject with 400 if unsafe, otherwise
execute it; an executor error propagates to the error middleware (no
history record), a success logs one record with status success. -/
def executeRawSQL (sql : String)
    (exec : String → Except String (List Row)) : RawOutcome :=
  if !(validateSQLSafety sql) then
    { response := .badRequest
        "SQL query contains unsafe operations. Only SELECT queries are allowed." none none
      history := [], executed := [] }
  else
    match exec sql with
    | .error e =>
      { response := .serverError e, history := [], executed := [sql] }
    | .ok rows =>
      { response := .okJson (some sql) rows.length
        history := [{ naturalLanguageQuery := "[Direct SQL Execution]"
                      generatedSql := sql
                      status := "success"
                      errorMessage := none
                      rowCount := rows.length }]
        executed := [sql] }

/-- buildSimpleSchema from src/backend/src/utils/schemaFetcher.js, as a
function of the stubbed information_schema.tables query outcome.  It never
throws: a query error yields a placeholder string, a success yields a
listing of the table names (possibly empty). -/
def buildSimpleSchema (queryResult : Except String (List String)) : String :=
  match queryResult with
  | .error _ =>
    "-- Unable to fetch schema information. Please ensure proper permissions are set."
  | .ok data =>
    "-- Available Tables:\n" ++ String.join (data.map (fun t => "-- " ++ t ++ "\n"))

/-! ## schemaFetcher.js : buildPrioritizedSchema

Schema rows exactly as returned by the introspection queries. -/

structure TableInfo where
  table_name : String
deriving Repr, DecidableEq

structure ColumnInfo where
  table_name : String
  column_name : String
  data_type : String
  is_nullable : String
  column_default : Option String
deriving Repr, DecidableEq

structure FKInfo where
  table_name : String
  column_name : String
  foreign_table_name : String
  foreign_column_name : String
deriving Repr, DecidableEq

structure SchemaData where
  tables : List TableInfo
  columns : List ColumnInfo
  foreignKeys : List FKInfo
deriving Repr, DecidableEq

/-- Three-way lexicographic comparison of character lists by code point. -/
def compareChars : List Char → List Char → Int
  | [], [] => 0
  | [], _ :: _ => -1
  | _ :: _, [] => 1
  | a :: as, b :: bs =>
    if a.toNat < b.toNat then -1
    else if b.toNat < a.toNat then 1
    else compareChars as bs

/-- String.prototype.localeCompare modelled as the standard three-way
lexicographic comparison (the table names involved are plain ASCII). -/
def localeCompare (a b : String) : Int :=
  compareChars a.data b.data

/-- The sort comparator of buildPrioritizedSchema: priority tables first,
then localeCompare on the table names (also between two priority tables). -/
def tableCompare (priorityTables : List String) (a b : TableInfo) : Int :=
  let aP := priorityTables.contains a.table_name
  let bP := priorityTables.contains b.table_name
  if aP && !bP then -1
  else if !aP && bP then 1
  else localeCompare a.table_name b.table_name

/-- Stable insertion into a sorted list (x goes before the first element
it compares less-or-equal to). -/
def insertSorted {α : Type} (le : α → α → Bool) (x : α) : List α → List α
  | [] => [x]
  | y :: ys => if le x y then x :: y :: ys else y :: insertSorted le x ys

/-- Stable insertion sort, modelling Array.prototype.sort with a
consistent comparator. -/
def sortBy {α : Type} (le : α → α → Bool) : List α → List α
  | [] => []
  | x :: xs => insertSorted le x (sortBy le xs)

/-- The non-strict order induced by the comparator. -/
def tableLe (priorityTables : List String) (a b : TableInfo) : Bool :=
  tableCompare priorityTables a b ≤ 0

/-- Plain lexicographic order on table names (the order within each of the
two groups). -/
def tableLexLe (a b : TableInfo) : Bool :=
  localeCompare a.table_name b.table_name ≤ 0

/-- The sorted table list of buildPrioritizedSchema. -/
def sortedTables (s : SchemaData) (priorityTables : List String) : List TableInfo :=
  sortBy (tableLe priorityTables) s.tables

/-- One rendered column line, with the trailing comma unless last. -/
def renderColumn (col : ColumnInfo) (isLast : Bool) : String :=
  "  " ++ col.column_name ++ " " ++ jsToUpper col.data_type ++
  (if col.is_nullable == "NO" then " NOT NULL" else "") ++
  (if jsTruthy col.column_default then " DEFAULT " ++ col.column_default.getD "" else "") ++
  (if isLast then "" else ",") ++ "\n"

/-- The column lines of one table block. -/
def renderColumns : List ColumnInfo → String
  | [] => ""
  | [c] => renderColumn c true
  | c :: rest => renderColumn c false ++ renderColumns rest

/-- One table block: header comment, CREATE TABLE pseudo-DDL, and the
per-table foreign-key comment lines. -/
def renderTable (columns : List ColumnInfo) (foreignKeys : List FKInfo)
    (t : TableInfo) : String :=
  let tableName := t.table_name
  let tableColumns := columns.filter (fun c => c.table_name == tableName)
  let tableFKs := foreignKeys.filter (fun fk => fk.table_name == tableName)
  "-- Table: " ++ tableName ++ "\n" ++
  "CREATE TABLE " ++ tableName ++ " (\n" ++
  renderColumns tableColumns ++
  ");\n" ++
  (if tableFKs.length > 0 then
    "-- Foreign Keys for " ++ tableName ++ ":\n" ++
    String.join (tableFKs.map (fun fk =>
      "--   " ++ fk.column_name ++ " -> " ++ fk.foreign_table_name ++ "." ++
      fk.foreign_column_name ++ "\n"))
  else "") ++
  "\n"

/-- buildPrioritizedSchema from src/backend/src/utils/schemaFetcher.js:
header, one block per table in comparator order, then the relationships
summary in discovery order. -/
def buildPrioritizedSchema (s : SchemaData) (priorityTables : List String) : String :=
  "-- PostgreSQL Database Schema\n\n" ++
  String.join ((sortedTables s priorityTables).map
    (renderTable s.columns s.foreignKeys)) ++
  (if s.foreignKeys.length > 0 then
    "-- Relationships Summary:\n" ++
    String.join (s.foreignKeys.map (fun fk =>
      "-- " ++ fk.table_name ++ "." ++ fk.column_name ++ " references " ++
      fk.foreign_table_name ++ "." ++ fk.foreign_column_name ++ "\n"))
  else "")

/-! ## executeSQLQuery (src/unnamed/part_003)

This version of the executor sniffs the SQL string with regular
expressions to decide between the remote execute_sql RPC (complex
queries) and a re-parse into a Supabase query-builder call (simple
queries).  Each regex is modelled as a scan over match positions. -/

/-- The regex fragment open-paren, whitespace, select with a trailing word
boundary, matched at position i. -/
def parenSelectAt (s : List Char) (i : Nat) : Bool :=
  match s.drop i with
  | '(' :: rest => matchWordHere "SELECT".data (rest.dropWhile Char.isWhitespace)
  | _ => false

/-- The regex group-whitespace-by fragment with word boundaries, matched
at position i. -/
def groupByAt (s : List Char) (i : Nat) : Bool :=
  wordBoundaryBefore s i &&
  matchCharsIC "GROUP".data (s.drop i) &&
  (match (s.drop i).drop 5 with
   | c :: rest =>
     c.isWhitespace && matchWordHere "BY".data ((c :: rest).dropWhile Char.isWhitespace)
   | [] => false)

/-- An aggregate-function call: word boundary, one of count sum avg min
max, optional whitespace, open paren, matched at position i. -/
def aggAt (s : List Char) (i : Nat) : Bool :=
  wordBoundaryBefore s i &&
  (["COUNT", "SUM", "AVG", "MIN", "MAX"].any (fun kw =>
    matchCharsIC kw.data (s.drop i) &&
    (match ((s.drop i).drop kw.length).dropWhile Char.isWhitespace with
     | '(' :: _ => true
     | _ => false)))

/-- The in-operator fragment: word boundary, in, optional whitespace, open
paren, matched at position i. -/
def inParenAt (s : List Char) (i : Nat) : Bool :=
  wordBoundaryBefore s i &&
  matchCharsIC "IN".data (s.drop i) &&
  (match ((s.drop i).drop 2).dropWhile Char.isWhitespace with
   | '(' :: _ => true
   | _ => false)

/-- The bang-equals comparison matched at position i. -/
def bangEqAt (s : List Char) (i : Nat) : Bool :=
  matchCharsIC "!=".data (s.drop i)

/-- hasComparison: any of greater-than, less-than, bang-equals, the word
like, or the word in followed by an open paren (the regex alternatives
with angle brackets subsume the two-character forms). -/
def hasComparison (s : List Char) : Bool :=
  s.any (fun c => c == '>' || c == '<') ||
  (List.range s.length).any (bangEqAt s) ||
  (List.range s.length).any (wordMatchAt "LIKE".data s) ||
  (List.range s.length).any (inParenAt s)

/-- isComplexQuery: the disjunction of the five sniffing regexes applied
to the raw SQL string. -/
def isComplexQuery (sql : String) : Bool :=
  (List.range sql.data.length).any (wordMatchAt "JOIN".data sql.data) ||
  (List.range sql.data.length).any (parenSelectAt sql.data) ||
  (List.range sql.data.length).any (groupByAt sql.data) ||
  (List.range sql.data.length).any (aggAt sql.data) ||
  hasComparison sql.data

/-- Position i starts a run of semicolons followed only by whitespace up
to the end of the string (the anchored trailing-semicolon regex). -/
def semisThenWsAt (s : List Char) (i : Nat) : Bool :=
  match s.drop i with
  | ';' :: rest => (rest.dropWhile (fun c => c == ';')).all Char.isWhitespace
  | _ => false

/-- The cleanup applied before the RPC call: trim, then remove the
leftmost trailing run of semicolons and whitespace. -/
def cleanSQLForRPC (sql : String) : String :=
  let t := (jsTrim sql).data
  match (List.range t.length).find? (semisThenWsAt t) with
  | some i => ⟨t.take i⟩
  | none => ⟨t⟩

/-- The from-clause regex matched at position i of the lowercased SQL:
from, mandatory whitespace, an optional public-dot prefix, then a word
captured as the table name. -/
def fromMatchAt (s : List Char) (i : Nat) : Option String :=
  if matchCharsIC "FROM".data (s.drop i) then
    let rest := (s.drop i).drop 4
    let ws := rest.takeWhile Char.isWhitespace
    if ws.length == 0 then none
    else
      let r2 := rest.drop ws.length
      let r3 :=
        if "public.".data.isPrefixOf r2 && isWordChar (r2.getD 7 ' ') then r2.drop 7
        else r2
      let w := r3.takeWhile isWordChar
      if w.length == 0 then none else some ⟨w⟩
  else none

/-- Leftmost match of the from-clause regex. -/
def fromMatch (s : List Char) : Option String :=
  (List.range s.length).findSome? (fromMatchAt s)

/-- The remainder starts with mandatory whitespace followed by from
(the tail of the select-columns regex). -/
def wsThenFrom (s : List Char) : Bool :=
  match s with
  | c :: _ => c.isWhitespace && matchCharsIC "FROM".data (s.dropWhile Char.isWhitespace)
  | [] => false

/-- The lazily captured middle of the select-columns regex: the shortest
prefix of single-line characters whose remainder is whitespace then from. -/
def findMiddle : List Char → Option (List Char)
  | [] => if wsThenFrom [] then some [] else none
  | c :: rest =>
    if wsThenFrom (c :: rest) then some []
    else if c == '\n' || c == '\r' then none
    else (findMiddle rest).map (fun m => c :: m)

/-- The select-columns regex matched at position i: select, mandatory
whitespace, then the lazy capture up to whitespace-from. -/
def selectCaptureAt (s : List Char) (i : Nat) : Option (List Char) :=
  if matchCharsIC "SELECT".data (s.drop i) then
    let rest := (s.drop i).drop 6
    match rest with
    | c :: _ =>
      if c.isWhitespace then findMiddle (rest.dropWhile Char.isWhitespace) else none
    | [] => none
  else none

/-- Leftmost match of the select-columns regex. -/
def selectCapture (s : List Char) : Option (List Char) :=
  (List.range s.length).findSome? (selectCaptureAt s)

/-- Remove a leading table qualifier: one leading word followed by a dot. -/
def stripTableDot (c : List Char) : List Char :=
  let w := c.takeWhile isWordChar
  if w.length > 0 && c.getD w.length ' ' == '.' then c.drop (w.length + 1) else c

/-- Position i of the column text starts the alias separator: whitespace,
as, whitespace. -/
def asSplitAt (s : List Char) (i : Nat) : Bool :=
  match s.drop i with
  | c :: _ =>
    c.isWhitespace &&
    (let r := (s.drop i).dropWhile Char.isWhitespace
     matchCharsIC "AS".data r && (r.getD 2 'x').isWhitespace)
  | [] => false

/-- The per-column cleanup of the builder path: trim, drop the table
qualifier, cut at the alias separator, trim again. -/
def cleanColumnJS (col : String) : String :=
  let c2 := stripTableDot (jsTrim col).data
  let firstPart :=
    match (List.range c2.length).find? (asSplitAt c2) with
    | some i => c2.take i
    | none => c2
  jsTrim ⟨firstPart⟩

/-- JavaScript s.split(','). -/
def splitOnComma : List Char → List (List Char)
  | [] => [[]]
  | c :: rest =>
    let r := splitOnComma rest
    if c == ',' then [] :: r
    else
      match r with
      | g :: gs => (c :: g) :: gs
      | [] => [[c]]

/-- JavaScript array.join(','). -/
def joinComma : List (List Char) → List Char
  | [] => []
  | [g] => g
  | g :: gs => g ++ ',' :: joinComma gs

/-- The columns argument handed to the query builder: star unless the
select capture exists and is not star, in which case the cleaned
comma-joined column list. -/
def parseColumns (sqlOriginal : String) : String :=
  match selectCapture sqlOriginal.data with
  | some g =>
    if jsTrim ⟨g⟩ == "*" then "*"
    else ⟨joinComma ((splitOnComma g).map (fun c => (cleanColumnJS ⟨c⟩).data))⟩
  | none => "*"

/-- The where-clause terminator of the lazy capture: end of string,
whitespace-order-whitespace-by, or whitespace-limit. -/
def whereTermAt (s : List Char) : Bool :=
  match s with
  | [] => true
  | c :: _ =>
    c.isWhitespace &&
    (let r := s.dropWhile Char.isWhitespace
     (matchCharsIC "ORDER".data r &&
      (match r.drop 5 with
       | d :: rest =>
         d.isWhitespace && matchCharsIC "BY".data ((d :: rest).dropWhile Char.isWhitespace)
       | [] => false)) ||
     matchCharsIC "LIMIT".data r)

/-- The lazily captured where-clause body: the shortest non-empty prefix
of single-line characters whose remainder starts with a terminator. -/
def whereBody : List Char → Option (List Char)
  | [] => none
  | c :: rest =>
    if c == '\n' || c == '\r' then none
    else if whereTermAt rest then some [c]
    else (whereBody rest).map (fun g => c :: g)

/-- The where-clause regex matched at position i: where, mandatory
whitespace, then the lazy body capture. -/
def whereCaptureAt (s : List Char) (i : Nat) : Option (List Char) :=
  if matchCharsIC "WHERE".data (s.drop i) then
    match (s.drop i).drop 5 with
    | c :: rest =>
      if c.isWhitespace then whereBody ((c :: rest).dropWhile Char.isWhitespace) else none
    | [] => none
  else none

/-- Leftmost match of the where-clause regex. -/
def whereCapture (s : List Char) : Option (List Char) :=
  (List.range s.length).findSome? (whereCaptureAt s)

/-- The simple-equality regex matched at position i of the where clause:
a word (the column), optional whitespace, equals, optional whitespace, an
optional quote, then a maximal run of non-quote characters (the value). -/
def eqMatchAt (s : List Char) (i : Nat) : Option (String × String) :=
  let w := (s.drop i).takeWhile isWordChar
  if w.length == 0 then none
  else
    match ((s.drop i).drop w.length).dropWhile Char.isWhitespace with
    | '=' :: r2 =>
      let r3 := r2.dropWhile Char.isWhitespace
      let r4 := match r3 with
        | '\'' :: rr => rr
        | _ => r3
      let v := r4.takeWhile (fun c => !(c == '\''))
      if v.length == 0 then none else some (⟨w⟩, ⟨v⟩)
    | _ => none

/-- Leftmost match of the simple-equality regex. -/
def eqMatch (s : List Char) : Option (String × String) :=
  (List.range s.length).findSome? (eqMatchAt s)

/-- The global quote removal applied to the captured value. -/
def removeQuotes (v : String) : String :=
  ⟨v.data.filter (fun c => !(c == '\''))⟩

/-- The order-by regex matched at position i: order, whitespace, by,
whitespace, a word, then an optional whitespace-asc-or-desc group. -/
def orderMatchAt (s : List Char) (i : Nat) : Option (String × Option String) :=
  if matchCharsIC "ORDER".data (s.drop i) then
    match (s.drop i).drop 5 with
    | c :: rest =>
      if !c.isWhitespace then none
      else
        let r2 := (c :: rest).dropWhile Char.isWhitespace
        if matchCharsIC "BY".data r2 then
          match r2.drop 2 with
          | d :: rest2 =>
            if !d.isWhitespace then none
            else
              let r4 := (d :: rest2).dropWhile Char.isWhitespace
              let w := r4.takeWhile isWordChar
              if w.length == 0 then none
              else
                let dir :=
                  match r4.drop w.length with
                  | e :: rest3 =>
                    if e.isWhitespace then
                      let r6 := (e :: rest3).dropWhile Char.isWhitespace
                      if matchCharsIC "ASC".data r6 then some "asc"
                      else if matchCharsIC "DESC".data r6 then some "desc"
                      else none
                    else none
                  | [] => none
                some (⟨w⟩, dir)
          | [] => none
        else none
    | [] => none
  else none

/-- Leftmost match of the order-by regex. -/
def orderMatch (s : List Char) : Option (String × Option String) :=
  (List.range s.length).findSome? (orderMatchAt s)

/-- The decimal value of a digit string, modelling parseInt on the
captured digits. -/
def digitsToNat (d : List Char) : Nat :=
  d.foldl (fun n c => n * 10 + (c.toNat - '0'.toNat)) 0

/-- The limit regex matched at position i: limit, whitespace, digits. -/
def limitMatchAt (s : List Char) (i : Nat) : Option Nat :=
  if matchCharsIC "LIMIT".data (s.drop i) then
    match (s.drop i).drop 5 with
    | c :: rest =>
      if !c.isWhitespace then none
      else
        let r2 := (c :: rest).dropWhile Char.isWhitespace
        let d := r2.takeWhile Char.isDigit
        if d.length == 0 then none else some (digitsToNat d)
    | [] => none
  else none

/-- Leftmost match of the limit regex. -/
def limitMatch (s : List Char) : Option Nat :=
  (List.range s.length).findSome? (limitMatchAt s)

/-- The query-builder call assembled by the simple path. -/
structure BuilderQuery where
  table : String
  columns : String
  whereEq : Option (String × String)
  orderBy : Option (String × Bool)
  limit : Option Nat
deriving Repr, DecidableEq

/-- What executeSQLQuery submits to the external database service: either
the execute_sql RPC with a query string, or a structured builder call. -/
inductive ExecCall where
  | rpc (query : String)
  | builder (q : BuilderQuery)
deriving Repr, DecidableEq

/-- executeSQLQuery from src/unnamed/part_003: complex queries (per the
sniffing regexes) go to the RPC after the trailing-semicolon cleanup; all
others are re-parsed into a builder call, failing when no table name can
be extracted. -/
def executeSQLQuery (sql : String) : Except String ExecCall :=
  if isComplexQuery sql then
    .ok (.rpc (cleanSQLForRPC sql))
  else
    let sqlOriginal := jsTrim sql
    let sqlLower := jsToLower sqlOriginal
    match fromMatch sqlLower.data with
    | none => .error "Could not parse table name from SQL query"
    | some tableName =>
      let whereEq :=
        match whereCapture sqlLower.data with
        | some g =>
          (match eqMatch (jsTrim ⟨g⟩).data with
           | some (col, v) => some (col, removeQuotes v)
           | none => none)
        | none => none
      let orderBy :=
        match orderMatch sqlLower.data with
        | some (col, dir) => some (col, dir == none || dir == some "asc")
        | none => none
      .ok (.builder
        { table := tableName
          columns := parseColumns sqlOriginal
          whereEq := whereEq
          orderBy := orderBy
          limit := limitMatch sqlLower.data })

/-- Value of a column in a row, modelling row[column]. -/
def rowGet (r : Row) (c : String) : Option String :=
  match r.find? (fun p => p.1 == c) with
  | some p => some p.2
  | none => none

/-- Reference model of the external query builder service: apply the
single equality filter, the ordering, and the limit to the named table. -/
def evalBuilder (table : List Row) (q : BuilderQuery) : List Row :=
  let rows :=
    match q.whereEq with
    | some (c, v) => table.filter (fun r => rowGet r c == some v)
    | none => table
  let rows2 :=
    match q.orderBy with
    | some (c, asc) =>
      sortBy (fun r1 r2 =>
        if asc then decide (((rowGet r1 c).getD "") ≤ ((rowGet r2 c).getD ""))
        else decide (((rowGet r2 c).getD "") ≤ ((rowGet r1 c).getD ""))) rows
    | none => rows
  match q.limit with
  | some n => rows2.take n
  | none => rows2

/-- Reference meaning of a select-star query over one table whose where
clause is a conjunction of column-equals-value conditions: keep exactly
the rows satisfying every condition. -/
def selectWhereEqs (table : List Row) (conds : List (String × String)) : List Row :=
  table.filter (fun r => conds.all (fun cv => rowGet r cv.1 == some cv.2))

/-! ## Helper lemmas -/

/-- The bounded scan over match positions agrees with the unbounded
existential formulation of a word-boundary keyword match, provided the
keyword is nonempty. -/
theorem wordTest_iff_specWordOccurs (kw s : String) (h : kw.data ≠ []) :
    wordTest kw s = true ↔ specWordOccurs kw s := by
  unfold wordTest specWordOccurs
  rw [List.any_eq_true]
  constructor
  · rintro ⟨i, -, hp⟩
    exact ⟨i, hp⟩
  · rintro ⟨i, hp⟩
    refine ⟨i, List.mem_range.mpr ?_, hp⟩
    by_contra hge
    push_neg at hge
    have hdrop : s.data.drop i = [] := List.drop_eq_nil_of_le hge
    unfold wordMatchAt matchWordHere matchCharsIC at hp
    rw [hdrop] at hp
    simp at hp
    exact h (List.length_eq_zero.mp hp.2.1.symm)

/-- Every denylist keyword is nonempty. -/
theorem dangerousKeywords_ne_nil : ∀ kw ∈ dangerousKeywords, kw.data ≠ [] := by
  decide

/-- A string accepted by the validator is nonempty. -/
theorem validateSQLSafety_ne_empty (s : String) (h : validateSQLSafety s = true) :
    s ≠ "" := by
  intro hs
  subst hs
  exact absurd h (by decide)

/-! ## C1 -/

/-- C1 counterexample: the validator accepts "SELECTED 1" although the
trimmed string does not begin with the token SELECT (only with the six
characters SELECT), so the claimed characterization is false there. -/
theorem C1_token_counterexample :
    validateSQLSafety "SELECTED 1" = true ∧ ¬ specSafeClaim "SELECTED 1" := by
  refine ⟨by decide, ?_⟩
  rintro ⟨⟨-, htok⟩, -⟩
  exact absurd htok (by decide)

/-- The validator is the conjunction of its prefix check and the negated
denylist scan. -/
theorem validateSQLSafety_eq (sql : String) :
    validateSQLSafety sql =
      (jsStartsWith (jsTrim (jsToUpper sql)) "SELECT" &&
       !(dangerousKeywords.any (fun kw => wordTest kw sql))) := by
  unfold validateSQLSafety
  cases h1 : jsStartsWith (jsTrim (jsToUpper sql)) "SELECT" <;>
    cases h2 : dangerousKeywords.any (fun kw => wordTest kw sql) <;>
      simp [h1, h2]

/-- C1 (amended): validateSQLSafety returns true exactly when the trimmed
string, compared case-insensitively, begins with the six characters SELECT
(a longer word such as SELECTED also passes) and no denylist keyword
occurs anywhere in the string as a case-insensitive whole word; in
particular the five concrete examples of the claim hold. -/
theorem C1_validator_characterization :
    (∀ sql : String,
      validateSQLSafety sql = true ↔
        (jsStartsWith (jsTrim (jsToUpper sql)) "SELECT" = true ∧
         ∀ kw ∈ dangerousKeywords, ¬ specWordOccurs kw sql)) ∧
    validateSQLSafety "SELECT * FROM t" = true ∧
    validateSQLSafety "select * from t" = true ∧
    validateSQLSafety "DELETE FROM t" = false ∧
    validateSQLSafety "SELECT * FROM t; DROP TABLE t;" = false ∧
    validateSQLSafety "SELECT * FROM t WHERE name = 'update'" = false := by
  refine ⟨?_, by decide, by decide, by decide, by decide, by decide⟩
  intro sql
  rw [validateSQLSafety_eq, Bool.and_eq_true, Bool.not_eq_true', List.any_eq_false]
  apply and_congr_right
  intro _
  constructor
  · intro h kw hkw hocc
    exact h kw hkw
      ((wordTest_iff_specWordOccurs kw sql (dangerousKeywords_ne_nil kw hkw)).mpr hocc)
  · intro h kw hkw hw
    exact h kw hkw
      ((wordTest_iff_specWordOccurs kw sql (dangerousKeywords_ne_nil kw hkw)).mp hw)

/-! ## C4 -/

/-- C4: on a cache miss prepareSchema does cache the fetched schema text,
but then fails with the unassigned-variable error instead of returning the
text (the caller sees Schema preparation failed: schemaContext is not
defined); on a truthy cache hit it returns the cached value. -/
theorem C4_prepareSchema_bug_eval :
    (prepareSchema "-- schema" [] "schema:u:c" 600 0).1 = .error schemaBugMessage ∧
    (cacheGet (prepareSchema "-- schema" [] "schema:u:c" 600 0).2 "schema:u:c" 0).1 =
      some "-- schema" ∧
    (prepareSchema "ignored" [("schema:u:c", ⟨some "cached", 0, 600000⟩)]
      "schema:u:c" 600 5).1 = .ok "cached" :=
  ⟨rfl, by decide, rfl⟩

/-! ## Cache lemmas -/

/-- Looking up the key just set returns the fresh entry. -/
theorem cacheLookup_cacheSet_self (c : Cache) (k : String) (v : Option String)
    (ttl now : Nat) :
    cacheLookup (cacheSet c k v ttl now) k = some ⟨v, now, ttl * 1000⟩ := by
  unfold cacheSet cacheLookup
  simp [List.find?]

/-- Deleting a key removes it from the lookup. -/
theorem cacheLookup_cacheDelete_self (c : Cache) (k : String) :
    cacheLookup (cacheDelete c k) k = none := by
  unfold cacheDelete cacheLookup
  induction c with
  | nil => rfl
  | cons p rest ih =>
    cases h : p.1 == k with
    | true => simpa [List.filter_cons, h] using ih
    | false => simpa [List.filter_cons, h, List.find?_cons] using ih

/-- A get whose lookup hits an entry is the expiry conditional. -/
theorem cacheGet_eq_of_lookup (c : Cache) (k : String) (now : Nat) (e : CacheEntry)
    (h : cacheLookup c k = some e) :
    cacheGet c k now =
      if e.ttl < now - e.timestamp then (none, cacheDelete c k) else (e.value, c) := by
  unfold cacheGet
  rw [h]

/-- A get whose lookup misses returns none and leaves the cache alone. -/
theorem cacheGet_eq_of_lookup_none (c : Cache) (k : String) (now : Nat)
    (h : cacheLookup c k = none) :
    cacheGet c k now = (none, c) := by
  unfold cacheGet
  rw [h]

/-! ## C5 -/

/-- C5 counterexample: with a one-second TTL set at time zero, a read at
exactly 1000 milliseconds still returns the value although the elapsed
time is not strictly less than the TTL, so the claimed strict-inequality
characterization is false at the boundary. -/
theorem C5_boundary_counterexample :
    (cacheGet (cacheSet [] "k" (some "v") 1 0) "k" 1000).1 = some "v" ∧
    ¬ ((1000 : Nat) - 0 < 1 * 1000) :=
  ⟨by decide, by decide⟩

/-- C5 (amended): after set(k, v, t) at time now0, a get(k) at time now1
returns v exactly when the elapsed milliseconds are at most t * 1000 (the
code expires strictly after the TTL, not at it); once a get observes the
entry expired it deletes it, and every later get of the key without an
intervening set returns absent (no resurrection). -/
theorem C5_ttl_characterization (c : Cache) (k v : String) (ttl now0 now1 : Nat)
    (_httl : 0 < ttl) :
    ((cacheGet (cacheSet c k (some v) ttl now0) k now1).1 = some v ↔
      now1 - now0 ≤ ttl * 1000) ∧
    (ttl * 1000 < now1 - now0 →
      (cacheGet (cacheSet c k (some v) ttl now0) k now1).1 = none ∧
      ∀ now2 : Nat,
        (cacheGet (cacheGet (cacheSet c k (some v) ttl now0) k now1).2 k now2).1 = none) := by
  have hl := cacheLookup_cacheSet_self c k (some v) ttl now0
  have hg := cacheGet_eq_of_lookup (cacheSet c k (some v) ttl now0) k now1 _ hl
  constructor
  · rw [hg]
    by_cases hexp : ttl * 1000 < now1 - now0
    · rw [if_pos hexp]
      constructor
      · intro hfalse
        exact absurd hfalse (by simp)
      · intro hle
        exact absurd hexp (by omega)
    · rw [if_neg hexp]
      constructor
      · intro _
        omega
      · intro _
        rfl
  · intro hexp
    rw [hg, if_pos hexp]
    refine ⟨rfl, ?_⟩
    intro now2
    rw [cacheGet_eq_of_lookup_none _ _ _ (cacheLookup_cacheDelete_self _ _)]

/-- C5 witness: the amended characterization instantiated at a concrete
set and two concrete reads, one fresh and one past the deadline. -/
theorem C5_ttl_witness :
    (0 < 1) ∧
    ((cacheGet (cacheSet [] "k" (some "v") 1 0) "k" 500).1 = some "v" ↔
      (500 : Nat) - 0 ≤ 1 * 1000) ∧
    (cacheGet (cacheSet [] "k" (some "v") 1 0) "k" 2000).1 = none ∧
    (cacheGet (cacheGet (cacheSet [] "k" (some "v") 1 0) "k" 2000).2 "k" 3000).1 = none := by
  refine ⟨by decide, (C5_ttl_characterization [] "k" "v" 1 0 500 (by decide)).1, ?_, ?_⟩
  · exact ((C5_ttl_characterization [] "k" "v" 1 0 2000 (by decide)).2 (by decide)).1
  · exact ((C5_ttl_characterization [] "k" "v" 1 0 2000 (by decide)).2 (by decide)).2 3000

/-! ## C9 -/

/-- C9: a stored null value in an unexpired entry is returned as null by
get and makes has return false, exactly as for an absent key, so a stored
null is indistinguishable from absence at the public interface. -/
theorem C9_null_indistinguishable (c : Cache) (k : String) (e : CacheEntry) (now : Nat)
    (hfind : cacheLookup c k = some e) (hv : e.value = none)
    (hfresh : ¬ e.ttl < now - e.timestamp) :
    (cacheGet c k now).1 = none ∧ (cacheHas c k now).1 = false ∧
    (∀ c2 : Cache, cacheLookup c2 k = none →
      (cacheGet c2 k now).1 = none ∧ (cacheHas c2 k now).1 = false) := by
  have hg := cacheGet_eq_of_lookup c k now e hfind
  refine ⟨?_, ?_, ?_⟩
  · rw [hg, if_neg hfresh]
    exact hv
  · unfold cacheHas
    rw [hfind]
    show (cacheGet c k now).1.isSome = false
    rw [hg, if_neg hfresh]
    show e.value.isSome = false
    rw [hv]
    rfl
  · intro c2 habs
    unfold cacheHas
    rw [habs]
    exact ⟨(congrArg Prod.fst (cacheGet_eq_of_lookup_none c2 k now habs)), rfl⟩

/-! ## Orchestrator equation lemmas -/

/-- A failed generation produces the failure result and submits nothing. -/
theorem generateAndExecuteQuery_gen_error (e : String)
    (exec : String → Except String (List Row)) :
    generateAndExecuteQuery (.error e) exec =
      (⟨false, none, none, none, some e⟩, []) := rfl

/-- Unsafe generated SQL produces the unsafe-query failure result and
submits nothing. -/
theorem generateAndExecuteQuery_rejected (s : String)
    (exec : String → Except String (List Row)) (h : validateSQLSafety s = false) :
    generateAndExecuteQuery (.ok s) exec =
      (⟨false, none, none, none, some unsafeQueryMessage⟩, []) := by
  simp only [generateAndExecuteQuery]
  rw [h]
  rfl

/-- A failing execution produces the failure result after submitting the
validated SQL. -/
theorem generateAndExecuteQuery_exec_error (s e : String)
    (exec : String → Except String (List Row))
    (hsafe : validateSQLSafety s = true) (hexec : exec s = .error e) :
    generateAndExecuteQuery (.ok s) exec =
      (⟨false, none, none, none, some e⟩, [s]) := by
  simp only [generateAndExecuteQuery]
  rw [hsafe, hexec]
  rfl

/-- A successful execution produces the success result carrying the SQL,
the rows and their count. -/
theorem generateAndExecuteQuery_success (s : String) (rows : List Row)
    (exec : String → Except String (List Row))
    (hsafe : validateSQLSafety s = true) (hexec : exec s = .ok rows) :
    generateAndExecuteQuery (.ok s) exec =
      (⟨true, some s, some rows, some rows.length, none⟩, [s]) := by
  simp only [generateAndExecuteQuery]
  rw [hsafe, hexec]
  rfl

/-- Every SQL string submitted by generateAndExecuteQuery passed the
safety validator. -/
theorem generateAndExecuteQuery_executed_validated (g : Except String String)
    (exec : String → Except String (List Row)) :
    ∀ q ∈ (generateAndExecuteQuery g exec).2, validateSQLSafety q = true := by
  intro q hq
  match g with
  | .error e =>
    rw [generateAndExecuteQuery_gen_error] at hq
    simp at hq
  | .ok s =>
    by_cases h : validateSQLSafety s = true
    · cases hex : exec s with
      | error e =>
        rw [generateAndExecuteQuery_exec_error s e exec h hex] at hq
        simp at hq
        rw [hq]
        exact h
      | ok rows =>
        rw [generateAndExecuteQuery_success s rows exec h hex] at hq
        simp at hq
        rw [hq]
        exact h
    · rw [generateAndExecuteQuery_rejected s exec (by simpa using h)] at hq
      simp at hq

/-- Re-reading a key right after a get at the same instant sees the same
visible value (the expired-entry purge does not resurrect anything). -/
theorem cacheGet_stable (c : Cache) (k : String) (now : Nat) :
    (cacheGet (cacheGet c k now).2 k now).1 = (cacheGet c k now).1 := by
  cases hl : cacheLookup c k with
  | none =>
    rw [cacheGet_eq_of_lookup_none c k now hl]
    rw [cacheGet_eq_of_lookup_none c k now hl]
  | some e =>
    rw [cacheGet_eq_of_lookup c k now e hl]
    by_cases hexp : e.ttl < now - e.timestamp
    · rw [if_pos hexp]
      show (cacheGet (cacheDelete c k) k now).1 = none
      rw [cacheGet_eq_of_lookup_none _ _ _ (cacheLookup_cacheDelete_self c k)]
    · rw [if_neg hexp]
      show (cacheGet c k now).1 = e.value
      rw [cacheGet_eq_of_lookup c k now e hl, if_neg hexp]

/-- Re-reading a key right after a get at the same instant leaves the
cache state unchanged. -/
theorem cacheGet_state_stable (c : Cache) (k : String) (now : Nat) :
    (cacheGet (cacheGet c k now).2 k now).2 = (cacheGet c k now).2 := by
  cases hl : cacheLookup c k with
  | none =>
    rw [cacheGet_eq_of_lookup_none c k now hl]
    rw [cacheGet_eq_of_lookup_none c k now hl]
  | some e =>
    rw [cacheGet_eq_of_lookup c k now e hl]
    by_cases hexp : e.ttl < now - e.timestamp
    · rw [if_pos hexp]
      show (cacheGet (cacheDelete c k) k now).2 = cacheDelete c k
      rw [cacheGet_eq_of_lookup_none _ _ _ (cacheLookup_cacheDelete_self c k)]
    · rw [if_neg hexp]
      show (cacheGet c k now).2 = c
      rw [cacheGet_eq_of_lookup c k now e hl, if_neg hexp]

/-- On a falsy cache read the controller calls prepareSchema, whose miss
path caches the fetched text and throws, so the request ends in the error
middleware with no history record and nothing executed. -/
theorem generateAndRunQuery_miss (c : Cache) (cacheKey : String) (now ttl : Nat)
    (nl schemaFetched : String) (gen : String → Except String String)
    (exec : String → Except String (List Row))
    (hmiss : jsTruthy (cacheGet c cacheKey now).1 = false) :
    generateAndRunQuery c cacheKey now ttl nl schemaFetched gen exec =
      { response := .serverError schemaBugMessage, history := [], executed := []
        cache := cacheSet (cacheGet c cacheKey now).2 cacheKey (some schemaFetched) ttl now } := by
  have hmiss2 : jsTruthy (cacheGet (cacheGet c cacheKey now).2 cacheKey now).1 = false := by
    rw [cacheGet_stable]
    exact hmiss
  unfold generateAndRunQuery prepareSchema
  rw [hmiss, hmiss2, cacheGet_state_stable]
  rfl

/-- On a truthy cache read the controller runs the pipeline on the cached
schema context, logs exactly one record, and responds by success flag. -/
theorem generateAndRunQuery_hit (c : Cache) (cacheKey : String) (now ttl : Nat)
    (nl schemaFetched : String) (gen : String → Except String String)
    (exec : String → Except String (List Row)) (sc : String)
    (hget : (cacheGet c cacheKey now).1 = some sc) (hne : sc ≠ "") :
    generateAndRunQuery c cacheKey now ttl nl schemaFetched gen exec =
      (if (generateAndExecuteQuery (gen sc) exec).1.success then
        { response := .okJson (generateAndExecuteQuery (gen sc) exec).1.generatedSQL
            ((generateAndExecuteQuery (gen sc) exec).1.rowCount.getD 0)
          history := [logEntry nl (generateAndExecuteQuery (gen sc) exec).1]
          executed := (generateAndExecuteQuery (gen sc) exec).2
          cache := (cacheGet c cacheKey now).2 }
      else
        { response := .badRequest "Query execution failed"
            (generateAndExecuteQuery (gen sc) exec).1.error
            (generateAndExecuteQuery (gen sc) exec).1.generatedSQL
          history := [logEntry nl (generateAndExecuteQuery (gen sc) exec).1]
          executed := (generateAndExecuteQuery (gen sc) exec).2
          cache := (cacheGet c cacheKey now).2 }) := by
  have htr : jsTruthy (cacheGet c cacheKey now).1 = true := by
    rw [hget]
    simpa [jsTruthy] using hne
  unfold generateAndRunQuery
  rw [htr, hget]
  rfl

/-- A truthy optional string is a nonempty some. -/
theorem jsTruthy_eq_true (v : Option String) (h : jsTruthy v = true) :
    ∃ s, v = some s ∧ s ≠ "" := by
  cases v with
  | none => simp [jsTruthy] at h
  | some s =>
    refine ⟨s, rfl, ?_⟩
    simpa [jsTruthy] using h

/-! ## C2 -/

/-- C2: in both request paths that reach the external executor, every SQL
string submitted to it passed validateSQLSafety, whatever the cache state,
the provider and the executor do. -/
theorem C2_safety_before_execution (c : Cache) (cacheKey : String) (now ttl : Nat)
    (nl schemaFetched : String) (gen : String → Except String String)
    (exec : String → Except String (List Row)) (rawSql : String)
    (exec2 : String → Except String (List Row)) :
    (∀ q ∈ (generateAndRunQuery c cacheKey now ttl nl schemaFetched gen exec).executed,
      validateSQLSafety q = true) ∧
    (∀ q ∈ (executeRawSQL rawSql exec2).executed, validateSQLSafety q = true) := by
  constructor
  · intro q hq
    by_cases htr : jsTruthy (cacheGet c cacheKey now).1 = true
    · obtain ⟨sc, hget, hne⟩ := jsTruthy_eq_true _ htr
      rw [generateAndRunQuery_hit c cacheKey now ttl nl schemaFetched gen exec sc hget hne] at hq
      by_cases hs : (generateAndExecuteQuery (gen sc) exec).1.success = true
      · rw [if_pos hs] at hq
        exact generateAndExecuteQuery_executed_validated _ _ q (by simpa using hq)
      · rw [if_neg hs] at hq
        exact generateAndExecuteQuery_executed_validated _ _ q (by simpa using hq)
    · rw [generateAndRunQuery_miss c cacheKey now ttl nl schemaFetched gen exec
        (by simpa using htr)] at hq
      simp at hq
  · intro q hq
    unfold executeRawSQL at hq
    by_cases h : validateSQLSafety rawSql = true
    · rw [h] at hq
      cases hex : exec2 rawSql with
      | error e =>
        rw [hex] at hq
        simp at hq
        rw [hq]
        exact h
      | ok rows =>
        rw [hex] at hq
        simp at hq
        rw [hq]
        exact h
    · rw [(by simpa using h : validateSQLSafety rawSql = false)] at hq
      simp at hq

/-- C2 witness: the guarantee instantiated on a concrete raw-SQL request
whose executor receives exactly the validated string. -/
theorem C2_witness : validateSQLSafety "SELECT 1" = true :=
  (C2_safety_before_execution [] "k" 0 600 "q" "f" (fun _ => .ok "SELECT 1")
      (fun _ => .ok []) "SELECT 1" (fun _ => .ok [])).2 "SELECT 1" (by decide)

/-! ## C3 -/

/-- C3 counterexample: in the discovery-failure scenario (cache miss and
no table discovered) the request produces zero history records, not
exactly one as claimed. -/
theorem C3_discovery_zero_records :
    (generateAndRunQuery [] "schema:u:c" 0 600 "count the orders"
      (buildSimpleSchema (.error "permission denied"))
      (fun _ => .ok "SELECT 1") (fun _ => .ok [])).history = [] := by
  decide

/-- C3 (amended): a falsy cache read (in particular every discovery
failure, since the miss path always throws) persists zero history
records; a truthy cache read persists exactly one record, whose status
and fields correspond to the scenario: generation failure, validation
failure and execution failure give an error record (with the generation
placeholder SQL, respectively the unsafe-query message), success gives a
success record carrying the SQL and the row count. -/
theorem C3_history_characterization (c : Cache) (cacheKey : String) (now ttl : Nat)
    (nl schemaFetched : String) (gen : String → Except String String)
    (exec : String → Except String (List Row)) :
    (jsTruthy (cacheGet c cacheKey now).1 = false →
      (generateAndRunQuery c cacheKey now ttl nl schemaFetched gen exec).history = []) ∧
    (∀ sc, (cacheGet c cacheKey now).1 = some sc → sc ≠ "" →
      (generateAndRunQuery c cacheKey now ttl nl schemaFetched gen exec).history =
        [logEntry nl (generateAndExecuteQuery (gen sc) exec).1]) ∧
    (∀ e : String,
      (logEntry nl (generateAndExecuteQuery (.error e) exec).1).status = "error" ∧
      (logEntry nl (generateAndExecuteQuery (.error e) exec).1).generatedSql =
        "Failed to generate SQL") ∧
    (∀ s : String, validateSQLSafety s = false →
      (logEntry nl (generateAndExecuteQuery (.ok s) exec).1).status = "error" ∧
      (logEntry nl (generateAndExecuteQuery (.ok s) exec).1).errorMessage =
        some unsafeQueryMessage) ∧
    (∀ s e : String, validateSQLSafety s = true → exec s = .error e →
      (logEntry nl (generateAndExecuteQuery (.ok s) exec).1).status = "error") ∧
    (∀ s : String, ∀ rows : List Row, validateSQLSafety s = true → exec s = .ok rows →
      (logEntry nl (generateAndExecuteQuery (.ok s) exec).1).status = "success" ∧
      (logEntry nl (generateAndExecuteQuery (.ok s) exec).1).generatedSql = s ∧
      (logEntry nl (generateAndExecuteQuery (.ok s) exec).1).rowCount = rows.length) := by
  refine ⟨?_, ?_, ?_, ?_, ?_, ?_⟩
  · intro hmiss
    rw [generateAndRunQuery_miss c cacheKey now ttl nl schemaFetched gen exec hmiss]
  · intro sc hget hne
    rw [generateAndRunQuery_hit c cacheKey now ttl nl schemaFetched gen exec sc hget hne]
    by_cases hs : (generateAndExecuteQuery (gen sc) exec).1.success = true
    · rw [if_pos hs]
    · rw [if_neg hs]
  · intro e
    rw [generateAndExecuteQuery_gen_error]
    exact ⟨rfl, rfl⟩
  · intro s hrej
    rw [generateAndExecuteQuery_rejected s exec hrej]
    exact ⟨rfl, rfl⟩
  · intro s e hsafe hexec
    rw [generateAndExecuteQuery_exec_error s e exec hsafe hexec]
    rfl
  · intro s rows hsafe hexec
    rw [generateAndExecuteQuery_success s rows exec hsafe hexec]
    refine ⟨rfl, ?_, rfl⟩
    show jsOrString (some s) "Failed to generate SQL" = s
    unfold jsOrString
    have hne := validateSQLSafety_ne_empty s hsafe
    simp [jsTruthy, hne]

/-- C3 witness: the characterization applied to a concrete cache hit with
a successful pipeline, yielding the single success record. -/
theorem C3_witness :
    (generateAndRunQuery [("k", ⟨some "-- s", 0, 600000⟩)] "k" 5 600 "q" "f"
      (fun _ => .ok "SELECT a FROM t") (fun _ => .ok [[("a", "1")]])).history =
      [logEntry "q" (generateAndExecuteQuery (.ok "SELECT a FROM t")
        (fun _ => .ok [[("a", "1")]])).1] :=
  (C3_history_characterization [("k", ⟨some "-- s", 0, 600000⟩)] "k" 5 600 "q" "f"
      (fun _ => .ok "SELECT a FROM t") (fun _ => .ok [[("a", "1")]])).2.1
    "-- s" (by decide) (by decide)

/-! ## C6 -/

/-- C6 counterexample: when the provider returns unsafe SQL the recorded
failure entry stores the placeholder text, not the rejected SQL itself,
so the preservation part of the claim is false (the SQL is indeed never
executed). -/
theorem C6_sql_not_preserved :
    (generateAndRunQuery [("k", ⟨some "-- s", 0, 600000⟩)] "k" 5 600 "q" "f"
      (fun _ => .ok "SELECT * FROM t; DROP TABLE t;") (fun _ => .ok [])).executed = [] ∧
    (generateAndRunQuery [("k", ⟨some "-- s", 0, 600000⟩)] "k" 5 600 "q" "f"
      (fun _ => .ok "SELECT * FROM t; DROP TABLE t;") (fun _ => .ok [])).history.map
      (fun entry => entry.generatedSql) = ["Failed to generate SQL"] ∧
    ¬ ("Failed to generate SQL" = "SELECT * FROM t; DROP TABLE t;") := by
  refine ⟨by decide, by decide, by decide⟩

/-- C6 (amended): unsafe generated SQL terminates the request with the
distinct unsafe-query error and is never submitted to the executor, and
exactly one failure record is written, but that record stores the
placeholder Failed to generate SQL instead of the rejected SQL (the catch
branch nulls generatedSQL). -/
theorem C6_unsafe_rejected (c : Cache) (cacheKey : String) (now ttl : Nat)
    (nl schemaFetched sc s : String) (gen : String → Except String String)
    (exec : String → Except String (List Row))
    (hget : (cacheGet c cacheKey now).1 = some sc) (hne : sc ≠ "")
    (hgen : gen sc = .ok s) (hrej : validateSQLSafety s = false) :
    (generateAndRunQuery c cacheKey now ttl nl schemaFetched gen exec).executed = [] ∧
    (generateAndRunQuery c cacheKey now ttl nl schemaFetched gen exec).history =
      [⟨nl, "Failed to generate SQL", "error", some unsafeQueryMessage, 0⟩] ∧
    (generateAndRunQuery c cacheKey now ttl nl schemaFetched gen exec).response =
      .badRequest "Query execution failed" (some unsafeQueryMessage) none := by
  rw [generateAndRunQuery_hit c cacheKey now ttl nl schemaFetched gen exec sc hget hne,
    hgen, generateAndExecuteQuery_rejected s exec hrej]
  exact ⟨rfl, rfl, rfl⟩

/-- C6 witness: the amended statement at a concrete run whose provider
returns a SELECT carrying a denylisted DROP. -/
theorem C6_witness :
    (generateAndRunQuery [("k", ⟨some "-- s", 0, 600000⟩)] "k" 5 600 "q" "f"
      (fun _ => .ok "SELECT id FROM t; DROP TABLE t;") (fun _ => .ok [[("id", "1")]])).executed
      = [] :=
  (C6_unsafe_rejected [("k", ⟨some "-- s", 0, 600000⟩)] "k" 5 600 "q" "f" "-- s"
      "SELECT id FROM t; DROP TABLE t;" (fun _ => .ok "SELECT id FROM t; DROP TABLE t;")
      (fun _ => .ok [[("id", "1")]]) (by decide) (by decide) rfl (by decide)).1

/-- C9 witness: the indistinguishability applied to a concrete unexpired
entry holding a stored null. -/
theorem C9_null_witness :
    (cacheGet [("k", ⟨none, 0, 600000⟩)] "k" 5).1 = none ∧
    (cacheHas [("k", ⟨none, 0, 600000⟩)] "k" 5).1 = false :=
  ⟨(C9_null_indistinguishable [("k", ⟨none, 0, 600000⟩)] "k" ⟨none, 0, 600000⟩ 5
      (by decide) rfl (by decide)).1,
   (C9_null_indistinguishable [("k", ⟨none, 0, 600000⟩)] "k" ⟨none, 0, 600000⟩ 5
      (by decide) rfl (by decide)).2.1⟩

/-! ## C8 -/

/-- C8 counterexample: after a discovery failure (the tables query
errors), the schema-preparation attempt does write a cache entry holding
the placeholder text, so the no-cache-write part of the claim is false. -/
theorem C8_cache_entry_written :
    (prepareSchema (buildSimpleSchema (.error "permission denied")) [] "schema:u:c"
      600 0).2 ≠ ([] : Cache) ∧
    (cacheGet (prepareSchema (buildSimpleSchema (.error "permission denied")) []
      "schema:u:c" 600 0).2 "schema:u:c" 0).1 =
      some "-- Unable to fetch schema information. Please ensure proper permissions are set." :=
  ⟨by decide, by decide⟩

/-- C8 (amended): when no discovery strategy yields a table,
buildSimpleSchema returns a placeholder text instead of failing;
prepareSchema caches that text under the key with the TTL and then fails
with the generic schemaContext-is-not-defined error, so the caller does
see a schema-preparation failure but a cache entry IS written (likewise
when the query succeeds with zero tables). -/
theorem C8_discovery_failure_writes_cache (c : Cache) (cacheKey : String)
    (ttl now : Nat) (err : String)
    (hmiss : jsTruthy (cacheGet c cacheKey now).1 = false) :
    (prepareSchema (buildSimpleSchema (.error err)) c cacheKey ttl now).1 =
      .error schemaBugMessage ∧
    (cacheGet (prepareSchema (buildSimpleSchema (.error err)) c cacheKey ttl now).2
      cacheKey now).1 = some (buildSimpleSchema (.error err)) ∧
    (prepareSchema (buildSimpleSchema (.ok [])) c cacheKey ttl now).1 =
      .error schemaBugMessage := by
  refine ⟨?_, ?_, ?_⟩
  · unfold prepareSchema
    rw [hmiss]
    rfl
  · unfold prepareSchema
    rw [hmiss]
    show (cacheGet (cacheSet (cacheGet c cacheKey now).2 cacheKey
      (some (buildSimpleSchema (.error err))) ttl now) cacheKey now).1 = _
    rw [cacheGet_eq_of_lookup _ _ _ _ (cacheLookup_cacheSet_self _ _ _ _ _)]
    simp
  · unfold prepareSchema
    rw [hmiss]
    rfl

/-- C8 witness: the amended statement at a concrete failed discovery over
an empty cache. -/
theorem C8_witness :
    (cacheGet (prepareSchema (buildSimpleSchema (.error "denied")) [] "schema:u:c"
      600 0).2 "schema:u:c" 0).1 = some (buildSimpleSchema (.error "denied")) :=
  (C8_discovery_failure_writes_cache [] "schema:u:c" 600 0 "denied" (by decide)).2.1

/-! ## C10 -/

/-- C10 counterexample: a complex query ending in a semicolon is not sent
verbatim to the RPC — the trailing semicolon is stripped first. -/
theorem C10_not_verbatim :
    isComplexQuery "SELECT COUNT(*) FROM t;" = true ∧
    executeSQLQuery "SELECT COUNT(*) FROM t;" = .ok (.rpc "SELECT COUNT(*) FROM t") ∧
    ¬ ("SELECT COUNT(*) FROM t" = "SELECT COUNT(*) FROM t;") :=
  ⟨by decide, rfl, by decide⟩

/-- C10 (amended): executeSQLQuery dispatches by regex-sniffing: every
query the sniffer deems complex goes to the remote execute_sql RPC after
trimming and stripping trailing semicolons, all others are re-parsed into
a query-builder call honoring at most the first simple equality of the
WHERE clause; the two paths are not equivalent — on a validated SELECT
with two AND-ed equalities the builder call keeps only the first one and
returns a row the SQL itself would exclude. -/
theorem C10_dispatch_and_nonequivalence :
    (∀ sql : String, isComplexQuery sql = true →
      executeSQLQuery sql = .ok (.rpc (cleanSQLForRPC sql))) ∧
    validateSQLSafety "SELECT * FROM users WHERE a = 'x' AND b = 'y'" = true ∧
    isComplexQuery "SELECT * FROM users WHERE a = 'x' AND b = 'y'" = false ∧
    executeSQLQuery "SELECT * FROM users WHERE a = 'x' AND b = 'y'" =
      .ok (.builder ⟨"users", "*", some ("a", "x"), none, none⟩) ∧
    evalBuilder [[("a", "x"), ("b", "y")], [("a", "x"), ("b", "z")]]
      ⟨"users", "*", some ("a", "x"), none, none⟩ =
      [[("a", "x"), ("b", "y")], [("a", "x"), ("b", "z")]] ∧
    selectWhereEqs [[("a", "x"), ("b", "y")], [("a", "x"), ("b", "z")]]
      [("a", "x"), ("b", "y")] = [[("a", "x"), ("b", "y")]] ∧
    [("a", "x"), ("b", "z")] ∈ evalBuilder [[("a", "x"), ("b", "y")], [("a", "x"), ("b", "z")]]
      ⟨"users", "*", some ("a", "x"), none, none⟩ ∧
    [("a", "x"), ("b", "z")] ∉ selectWhereEqs
      [[("a", "x"), ("b", "y")], [("a", "x"), ("b", "z")]] [("a", "x"), ("b", "y")] := by
  refine ⟨?_, by decide, by decide, rfl, by decide, by decide, by decide, by decide⟩
  intro sql h
  unfold executeSQLQuery
  rw [h]
  rfl

/-- C10 witness: the complex-dispatch part instantiated at a concrete
aggregate query. -/
theorem C10_witness :
    executeSQLQuery "SELECT COUNT(*) FROM orders" =
      .ok (.rpc (cleanSQLForRPC "SELECT COUNT(*) FROM orders")) :=
  C10_dispatch_and_nonequivalence.1 "SELECT COUNT(*) FROM orders" (by decide)

/-! ## C7 : sort-order lemmas -/

/-- A priority table compares before a non-priority table. -/
theorem tableLe_pri_nonpri (p : List String) (a b : TableInfo)
    (ha : p.contains a.table_name = true) (hb : p.contains b.table_name = false) :
    tableLe p a b = true := by
  unfold tableLe tableCompare
  rw [ha, hb]
  rfl

/-- A non-priority table never compares before a priority table. -/
theorem tableLe_nonpri_pri (p : List String) (a b : TableInfo)
    (ha : p.contains a.table_name = false) (hb : p.contains b.table_name = true) :
    tableLe p a b = false := by
  unfold tableLe tableCompare
  rw [ha, hb]
  rfl

/-- Within one group (both priority or both non-priority) the comparator
is the plain lexicographic one — the order of priorityTables is ignored. -/
theorem tableLe_same_group (p : List String) (a b : TableInfo)
    (h : p.contains a.table_name = p.contains b.table_name) :
    tableLe p a b = tableLexLe a b := by
  unfold tableLe tableLexLe tableCompare
  rw [← h]
  cases hv : p.contains a.table_name <;> rfl

/-- Membership through a sorted insertion. -/
theorem mem_insertSorted {α : Type} (le : α → α → Bool) (x : α) (l : List α) (y : α) :
    y ∈ insertSorted le x l ↔ y = x ∨ y ∈ l := by
  induction l with
  | nil => simp [insertSorted]
  | cons z zs ih =>
    simp only [insertSorted]
    cases hc : le x z with
    | true =>
      simp [List.mem_cons]
    | false =>
      rw [if_neg Bool.false_ne_true]
      simp only [List.mem_cons, ih]
      tauto

/-- Membership through the insertion sort. -/
theorem mem_sortBy {α : Type} (le : α → α → Bool) (l : List α) (y : α) :
    y ∈ sortBy le l ↔ y ∈ l := by
  induction l with
  | nil => simp [sortBy]
  | cons x xs ih =>
    simp [sortBy, mem_insertSorted, ih, List.mem_cons]

/-- Inserting a priority element into a priority block followed by a
non-priority block inserts into the first block. -/
theorem insertSorted_pri_append (p : List String) (x : TableInfo)
    (A B : List TableInfo) (hx : p.contains x.table_name = true)
    (hA : ∀ a ∈ A, p.contains a.table_name = true)
    (hB : ∀ b ∈ B, p.contains b.table_name = false) :
    insertSorted (tableLe p) x (A ++ B) = insertSorted tableLexLe x A ++ B := by
  induction A with
  | nil =>
    cases B with
    | nil => rfl
    | cons b B' =>
      show insertSorted (tableLe p) x (b :: B') = [x] ++ (b :: B')
      simp only [insertSorted]
      rw [tableLe_pri_nonpri p x b hx (hB b (List.mem_cons_self b B'))]
      rfl
  | cons a A' ih =>
    have hxa : tableLe p x a = tableLexLe x a :=
      tableLe_same_group p x a (by rw [hx, hA a (List.mem_cons_self a A')])
    show insertSorted (tableLe p) x (a :: (A' ++ B)) =
      insertSorted tableLexLe x (a :: A') ++ B
    simp only [insertSorted, hxa]
    cases hc : tableLexLe x a with
    | true => rfl
    | false =>
      rw [if_neg Bool.false_ne_true, if_neg Bool.false_ne_true, List.cons_append,
        ih (fun a' ha' => hA a' (List.mem_cons_of_mem a ha'))]

/-- Inserting a non-priority element into a run of non-priority elements
uses the plain lexicographic comparator throughout. -/
theorem insertSorted_nonpri (p : List String) (x : TableInfo) (B : List TableInfo)
    (hx : p.contains x.table_name = false)
    (hB : ∀ b ∈ B, p.contains b.table_name = false) :
    insertSorted (tableLe p) x B = insertSorted tableLexLe x B := by
  induction B with
  | nil => rfl
  | cons b B' ih =>
    have hxb : tableLe p x b = tableLexLe x b :=
      tableLe_same_group p x b (by rw [hx, hB b (List.mem_cons_self b B')])
    simp only [insertSorted, hxb]
    cases hc : tableLexLe x b with
    | true => rfl
    | false =>
      rw [if_neg Bool.false_ne_true, if_neg Bool.false_ne_true,
        ih (fun b' hb' => hB b' (List.mem_cons_of_mem b hb'))]

/-- Inserting a non-priority element into a priority block followed by a
non-priority block inserts into the second block. -/
theorem insertSorted_nonpri_append (p : List String) (x : TableInfo)
    (A B : List TableInfo) (hx : p.contains x.table_name = false)
    (hA : ∀ a ∈ A, p.contains a.table_name = true)
    (hB : ∀ b ∈ B, p.contains b.table_name = false) :
    insertSorted (tableLe p) x (A ++ B) = A ++ insertSorted tableLexLe x B := by
  induction A with
  | nil =>
    simpa using insertSorted_nonpri p x B hx hB
  | cons a A' ih =>
    have hxa : tableLe p x a = false :=
      tableLe_nonpri_pri p x a hx (hA a (List.mem_cons_self a A'))
    show insertSorted (tableLe p) x (a :: (A' ++ B)) =
      a :: (A' ++ insertSorted tableLexLe x B)
    simp only [insertSorted, hxa]
    rw [if_neg Bool.false_ne_true, ih (fun a' ha' => hA a' (List.mem_cons_of_mem a ha'))]

/-- The comparator sort splits into the lexicographically sorted priority
group followed by the lexicographically sorted non-priority group. -/
theorem sortBy_tableLe_characterization (p : List String) (l : List TableInfo) :
    sortBy (tableLe p) l =
      sortBy tableLexLe (l.filter (fun t => p.contains t.table_name)) ++
      sortBy tableLexLe (l.filter (fun t => !(p.contains t.table_name))) := by
  induction l with
  | nil => rfl
  | cons t l' ih =>
    have hA : ∀ a ∈ sortBy tableLexLe (l'.filter (fun t => p.contains t.table_name)),
        p.contains a.table_name = true :=
      fun a ha => (List.mem_filter.mp ((mem_sortBy _ _ _).mp ha)).2
    have hB : ∀ b ∈ sortBy tableLexLe (l'.filter (fun t => !(p.contains t.table_name))),
        p.contains b.table_name = false :=
      fun b hb => by
        have hmem := (List.mem_filter.mp ((mem_sortBy _ _ _).mp hb)).2
        simpa using hmem
    cases h : p.contains t.table_name with
    | true =>
      simp only [sortBy, List.filter_cons, h, Bool.not_true, if_pos rfl,
        if_neg (by simp : ¬ (false = true))]
      rw [ih, insertSorted_pri_append p t _ _ h hA hB]
    | false =>
      simp only [sortBy, List.filter_cons, h, Bool.not_false, if_pos rfl,
        if_neg (by simp : ¬ (false = true))]
      rw [ih, insertSorted_nonpri_append p t _ _ h hA hB]

/-- Insertion with pointwise-equal comparators agrees. -/
theorem insertSorted_congr {α : Type} (le1 le2 : α → α → Bool) (x : α) (l : List α)
    (h : ∀ a b, le1 a b = le2 a b) :
    insertSorted le1 x l = insertSorted le2 x l := by
  induction l with
  | nil => rfl
  | cons z zs ih =>
    simp only [insertSorted, h, ih]

/-- Sorting with pointwise-equal comparators agrees. -/
theorem sortBy_congr {α : Type} (le1 le2 : α → α → Bool) (l : List α)
    (h : ∀ a b, le1 a b = le2 a b) :
    sortBy le1 l = sortBy le2 l := by
  induction l with
  | nil => rfl
  | cons x xs ih =>
    simp only [sortBy, ih]
    exact insertSorted_congr le1 le2 x _ h

/-- The comparator only reads membership in priorityTables. -/
theorem tableLe_congr (p1 p2 : List String)
    (h : ∀ x, p1.contains x = p2.contains x) (a b : TableInfo) :
    tableLe p1 a b = tableLe p2 a b := by
  unfold tableLe tableCompare
  rw [h, h]

/-- C7 counterexample: with both tables in priorityTables the output
keeps them in lexicographic order rather than in the order given
(["beta", "alpha"] is claimed, ["alpha", "beta"] is produced), and
permuting priorityTables leaves the output byte-identical rather than
permuting the matched tables. -/
theorem C7_priority_order_counterexample :
    (sortedTables ⟨[⟨"beta"⟩, ⟨"alpha"⟩], [], []⟩ ["beta", "alpha"]).map
      (fun t => t.table_name) = ["alpha", "beta"] ∧
    ¬ ((["alpha", "beta"] : List String) = ["beta", "alpha"]) ∧
    buildPrioritizedSchema ⟨[⟨"beta"⟩, ⟨"alpha"⟩], [], []⟩ ["beta", "alpha"] =
      buildPrioritizedSchema ⟨[⟨"beta"⟩, ⟨"alpha"⟩], [], []⟩ ["alpha", "beta"] :=
  ⟨by decide, by decide, by decide⟩

/-- C7 (amended): buildPrioritizedSchema is deterministic and orders the
tables with the priority group first, but both the priority group and the
remaining tables are sorted lexicographically by name — the order inside
priorityTables is ignored, and the output depends on priorityTables only
through membership, so permuting its elements never changes the output. -/
theorem C7_ordering (s : SchemaData) (p : List String) :
    sortedTables s p =
      sortBy tableLexLe (s.tables.filter (fun t => p.contains t.table_name)) ++
      sortBy tableLexLe (s.tables.filter (fun t => !(p.contains t.table_name))) ∧
    ∀ p2 : List String, (∀ x, p.contains x = p2.contains x) →
      buildPrioritizedSchema s p = buildPrioritizedSchema s p2 := by
  constructor
  · exact sortBy_tableLe_characterization p s.tables
  · intro p2 h
    unfold buildPrioritizedSchema sortedTables
    rw [sortBy_congr (tableLe p) (tableLe p2) s.tables (tableLe_congr p p2 h)]

/-- C7 witness: the membership-invariance applied to a concrete schema
and a permuted priority list. -/
theorem C7_witness :
    buildPrioritizedSchema ⟨[⟨"b"⟩, ⟨"a"⟩], [], []⟩ ["a", "b"] =
      buildPrioritizedSchema ⟨[⟨"b"⟩, ⟨"a"⟩], [], []⟩ ["b", "a"] :=
  (C7_ordering ⟨[⟨"b"⟩, ⟨"a"⟩], [], []⟩ ["a", "b"]).2 ["b", "a"]
    (fun x => by
      simp only [List.contains_cons, List.contains_nil, Bool.or_false]
      exact Bool.or_comm _ _)

end AISQL
